import Mathlib

/-!
Shallow embedding of the Cloud Function pipeline in `cloud_function/main.py`
(webhook handler `salesforce_trigger` and its helper stages
`parse_salesforce_notification`, `get_secrets`, `insert_into_bigquery`,
`send_email_notification`).

External effects (the flask request body, Secret Manager, Salesforce, BigQuery,
Gmail) are modelled as an `Env` of oracles fixing the outcome of each external
call; given an `Env`, the Python handler's control flow is deterministic and is
translated function-by-function below.  A Python function that may let an
exception escape is embedded with an explicit `uncaught`/`Except.error`
alternative; a `try/except` that swallows the fault is embedded by returning
the normal continuation value.
-/

namespace GcpDemo

/-- Python/JSON values as produced by `request.get_json()` and by the
Salesforce client.  Objects are association lists in insertion order; the
Python `dict` built by `json.loads` keeps the last occurrence of a duplicated
key, which `lookupField` mirrors. -/
inductive Json where
  | null
  | bool (b : Bool)
  | num (n : Int)
  | str (s : String)
  | arr (elems : List Json)
  | obj (fields : List (String × Json))

/-- Python `dict.get` over the association list representing the dict built by
`json.loads`: the last occurrence of a key wins. -/
def lookupField (fields : List (String × Json)) (key : String) : Option Json :=
  match fields with
  | [] => none
  | (k, v) :: rest =>
    match lookupField rest key with
    | some r => some r
    | none => if k = key then some v else none

/-- Python truthiness of a JSON value (`if record_id:`, `if not salesforce_data:`). -/
def Json.truthy : Json → Bool
  | .null => false
  | .bool b => b
  | .num n => n != 0
  | .str s => s != ""
  | .arr elems => !elems.isEmpty
  | .obj fields => !fields.isEmpty

mutual

/-- Python `repr` of a JSON value, used by `str` on containers. -/
def pyRepr : Json → String
  | .null => "None"
  | .bool true => "True"
  | .bool false => "False"
  | .num n => toString n
  | .str s => "\x27" ++ s ++ "\x27"
  | .arr elems => "[" ++ pyReprElems elems ++ "]"
  | .obj fields => "\x7b" ++ pyReprFields fields ++ "\x7d"

/-- Comma-separated `repr`s of list elements. -/
def pyReprElems : List Json → String
  | [] => ""
  | [x] => pyRepr x
  | x :: y :: rest => pyRepr x ++ ", " ++ pyReprElems (y :: rest)

/-- Comma-separated `repr`s of dict entries. -/
def pyReprFields : List (String × Json) → String
  | [] => ""
  | [(k, v)] => "\x27" ++ k ++ "\x27: " ++ pyRepr v
  | (k, v) :: e :: rest => "\x27" ++ k ++ "\x27: " ++ pyRepr v ++ ", " ++ pyReprFields (e :: rest)

end

/-- Python `str` of a JSON value, as interpolated by an f-string. -/
def pyStr : Json → String
  | .str s => s
  | j => pyRepr j

/-- Python `str` of an `os.environ.get` result interpolated into an f-string
(`None` when the variable is unset). -/
def pyStrOpt : Option String → String
  | none => "None"
  | some s => s

/-- The `"salesforce"` sub-dict of the bundle returned by `get_secrets`. -/
structure SfCreds where
  username : String
  password : String
  token : String
  instance_url : String

/-- The `"gmail"` sub-dict of the bundle returned by `get_secrets`. -/
structure GmailCreds where
  client_id : String
  client_secret : String
  refresh_token : String

/-- The full credential bundle returned by `get_secrets` on success. -/
structure Secrets where
  salesforce : SfCreds
  gmail : GmailCreds

/-- Outcome of `Salesforce(...)` construction plus `sf.Account.get(record_id)`:
either the call chain raises, or it returns a value. -/
inductive FetchResult where
  | raises (msg : String)
  | returns (data : Json)

/-- Outcome of `client.insert_rows_json(table, rows)`: either it raises, or it
returns the list of row-level error messages (empty on success). -/
inductive InsertOutcome where
  | raises (msg : String)
  | returns (errors : List String)

/-- The MIME message assembled by `send_email_notification`: header fields
`to`, `from` (kept as the raw `os.environ.get` result, possibly absent),
`subject`, and the HTML payload. -/
structure Message where
  toAddr : String
  sender : Option String
  subject : String
  body : String

/-- Oracles fixing the outcome of every external call made during one
invocation, together with the environment variables read by the code. -/
structure Env where
  /-- Result of `request.get_json()`; `none` models the call raising on a
  non-JSON body (the `except` in the parser catches it). -/
  request : Option Json
  /-- `os.environ.get("GCP_PROJECT")`. -/
  GCP_PROJECT : Option String
  /-- `client.access_secret_version` keyed by the full resource name;
  `none` models the access raising (secret or version unresolvable). -/
  store : String → Option String
  /-- `Salesforce(**sf_credentials)` followed by `sf.Account.get(record_id)`. -/
  fetch : SfCreds → Json → FetchResult
  /-- The BigQuery client construction, `client.dataset(...).table(...)` and
  `client.get_table(table_ref)` preceding the `try` in `insert_into_bigquery`;
  an `error` propagates out of the function uncaught. -/
  tableLookup : Except String Unit
  /-- `client.insert_rows_json(table, [data])` on the given row. -/
  insertRows : Json → InsertOutcome
  /-- `Credentials.from_authorized_user_info` plus `build("gmail", "v1", ...)`. -/
  buildService : GmailCreds → Except String Unit
  /-- `os.environ.get("FROM_EMAIL")`. -/
  FROM_EMAIL : Option String
  /-- `os.environ.get("TO_EMAILS")` (defaulted to `""` at the use site). -/
  TO_EMAILS : Option String
  /-- `service.users().messages().send(...).execute()` on the assembled
  message: message id on success, `error` when the send raises. -/
  sendMessage : Message → Except String String

/-- What one invocation of the handler produces: either the `(body, status)`
pair it returns, or the message of an exception it lets escape. -/
inductive Outcome where
  | response (body : String) (status : Nat)
  | uncaught (msg : String)

/-- Result of one invocation: the handler's outcome plus the observable side
effects — the rows actually inserted into the BigQuery table and the mail
messages actually submitted for delivery. -/
structure RunResult where
  outcome : Outcome
  insertedRows : List Json
  sentMessages : List Message

/-- `parse_salesforce_notification`: extracts `recordId` from the JSON body.
Any exception inside (non-JSON body; `.get` on a non-dict) is caught and
yields `None`; a missing or falsy `recordId` also yields `None`. -/
def parse_salesforce_notification (request_data : Option Json) : Option Json :=
  match request_data with
  | none => none
  | some notification_data =>
    match notification_data with
    | Json.obj fields =>
      match lookupField fields "recordId" with
      | none => none
      | some record_id => if record_id.truthy then some record_id else none
    | _ => none

/-- The full Secret Manager resource name
`projects/{project_id}/secrets/{secret_id}/versions/latest`. -/
def resourceName (project_id : Option String) (secret_id : String) : String :=
  "projects/" ++ pyStrOpt project_id ++ "/secrets/" ++ secret_id ++ "/versions/latest"

/-- The secret ids listed in `secret_names`, in the loop's iteration order. -/
def requiredSecretIds : List String :=
  ["salesforce-username", "salesforce-password", "salesforce-token",
   "salesforce-instance-url", "gmail-client-id", "gmail-client-secret",
   "gmail-refresh-token"]

/-- `get_secrets`: resolves the seven named secrets in loop order inside one
`try`; the first access that raises aborts the loop and the `except` returns
`None`, otherwise the full bundle is assembled and returned. -/
def get_secrets (env : Env) : Option Secrets :=
  match env.store (resourceName env.GCP_PROJECT "salesforce-username") with
  | none => none
  | some username =>
  match env.store (resourceName env.GCP_PROJECT "salesforce-password") with
  | none => none
  | some password =>
  match env.store (resourceName env.GCP_PROJECT "salesforce-token") with
  | none => none
  | some token =>
  match env.store (resourceName env.GCP_PROJECT "salesforce-instance-url") with
  | none => none
  | some instance_url =>
  match env.store (resourceName env.GCP_PROJECT "gmail-client-id") with
  | none => none
  | some client_id =>
  match env.store (resourceName env.GCP_PROJECT "gmail-client-secret") with
  | none => none
  | some client_secret =>
  match env.store (resourceName env.GCP_PROJECT "gmail-refresh-token") with
  | none => none
  | some refresh_token =>
  some ⟨⟨username, password, token, instance_url⟩,
        ⟨client_id, client_secret, refresh_token⟩⟩

/-- `insert_into_bigquery`: the client/table lookup precedes the `try` and may
raise out of the function (`Except.error`); inside the `try`,
`insert_rows_json` is called on `[data]` and both an exception and a non-empty
error list are only logged.  The `ok` payload is the list of rows actually
added to the table: `[data]` exactly when `insert_rows_json` returns `[]`. -/
def insert_into_bigquery (env : Env) (data : Json) : Except String (List Json) :=
  match env.tableLookup with
  | Except.error e => Except.error e
  | Except.ok _ =>
    match env.insertRows data with
    | InsertOutcome.raises _ => Except.ok []
    | InsertOutcome.returns errors =>
      if errors = [] then Except.ok [data] else Except.ok []

/-- The field interpolations `data.get("Name", "N/A")` etc.: the value
rendered by `str`, or the literal `N/A` when the key is absent. -/
def fieldOrNA (fields : List (String × Json)) (key : String) : String :=
  match lookupField fields key with
  | none => "N/A"
  | some v => pyStr v

/-- The HTML payload template of the `MIMEText` message, with the four
interpolated field strings as arguments. -/
def bodyText (name id industry phone : String) : String :=
  "\n        <h3>A Salesforce record has been processed and added to BigQuery.</h3>\n        <p><strong>Record Name:</strong> "
    ++ name
    ++ "</p>\n        <p><strong>Record ID:</strong> "
    ++ id
    ++ "</p>\n        <p><strong>Industry:</strong> "
    ++ industry
    ++ "</p>\n        <p><strong>Phone:</strong> "
    ++ phone
    ++ "</p>\n        "

/-- The message assembled by `send_email_notification` from the fetched
record's fields and the `FROM_EMAIL`/`TO_EMAILS` environment variables. -/
def buildMessage (env : Env) (fields : List (String × Json)) : Message :=
  { toAddr := String.intercalate ", " (((env.TO_EMAILS).getD "").splitOn ",")
    sender := env.FROM_EMAIL
    subject := "New Salesforce Record Created/Updated: " ++ fieldOrNA fields "Name"
    body := bodyText (fieldOrNA fields "Name") (fieldOrNA fields "Id")
      (fieldOrNA fields "Industry") (fieldOrNA fields "Phone") }

/-- `send_email_notification`: everything is inside one `try`, so every fault
(credential construction, service build, a non-dict `data` making `.get`
raise, the send call raising) is caught and only logged.  The value is the
list of messages actually submitted: `[message]` exactly when the send
executes successfully, `[]` otherwise. -/
def send_email_notification (env : Env) (credentials_info : GmailCreds)
    (data : Json) : List Message :=
  match env.buildService credentials_info with
  | Except.error _ => []
  | Except.ok _ =>
    match data with
    | Json.obj fields =>
      let message := buildMessage env fields
      match env.sendMessage message with
      | Except.error _ => []
      | Except.ok _ => [message]
    | _ => []

/-- `salesforce_trigger`: the handler.  A parse failure returns 400; a `None`
from `get_secrets` is subscripted on the next line, raising a `TypeError` that
escapes the handler; a raising Salesforce call escapes the handler; a falsy
fetched value returns 500 with the record id interpolated; a raising table
lookup in `insert_into_bigquery` escapes the handler; every other insert or
send failure is swallowed and the handler returns the success text with 200. -/
def salesforce_trigger (env : Env) : RunResult :=
  match parse_salesforce_notification env.request with
  | none =>
    ⟨Outcome.response "Error: Could not parse record ID from notification." 400, [], []⟩
  | some record_id =>
    match get_secrets env with
    | none =>
      ⟨Outcome.uncaught "TypeError: NoneType object is not subscriptable", [], []⟩
    | some secrets =>
      match env.fetch secrets.salesforce record_id with
      | FetchResult.raises e => ⟨Outcome.uncaught e, [], []⟩
      | FetchResult.returns salesforce_data =>
        if salesforce_data.truthy then
          match insert_into_bigquery env salesforce_data with
          | Except.error e => ⟨Outcome.uncaught e, [], []⟩
          | Except.ok rows =>
            ⟨Outcome.response "Successfully processed Salesforce notification." 200,
             rows, send_email_notification env secrets.gmail salesforce_data⟩
        else
          ⟨Outcome.response
            ("Error: Could not retrieve data for record " ++ pyStr record_id
              ++ " from Salesforce.") 500, [], []⟩

/-- One invocation against a warehouse table state: the rows inserted by the
run are appended to the table (`insert_rows_json` is a streaming append; no
key, no update, no merge, no deduplication). -/
def runPipeline (table : List Json) (env : Env) : List Json × RunResult :=
  let r := salesforce_trigger env
  (table ++ r.insertedRows, r)

/-! Concrete environments used by the witnesses, built around the spec's
concrete scenario (`recordId = 001xx000003DHPGAA4`, record
`Acme Corp / Tech / 555-1234`). -/

/-- The fetched record of the spec's concrete scenario. -/
def sampleFields : List (String × Json) :=
  [("Id", Json.str "001xx000003DHPGAA4"), ("Name", Json.str "Acme Corp"),
   ("Industry", Json.str "Tech"), ("Phone", Json.str "555-1234")]

/-- The fetched record as the dict returned by `sf.Account.get`. -/
def sampleRecord : Json := Json.obj sampleFields

/-- An environment in which every external call succeeds. -/
def envOk : Env where
  request := some (Json.obj [("recordId", Json.str "001xx000003DHPGAA4")])
  GCP_PROJECT := some "demo-project"
  store := fun _ => some "secret-value"
  fetch := fun _ _ => FetchResult.returns sampleRecord
  tableLookup := Except.ok ()
  insertRows := fun _ => InsertOutcome.returns []
  buildService := fun _ => Except.ok ()
  FROM_EMAIL := some "sender@example.com"
  TO_EMAILS := some "a@example.com,b@example.com"
  sendMessage := fun _ => Except.ok "msg-0001"

/-- C5: for every request whose body is a JSON object containing a non-empty
string value under the key `recordId`, the parser returns exactly that string,
unmodified. -/
theorem parse_returns_exact_record_id (fields : List (String × Json)) (s : String)
    (hfield : lookupField fields "recordId" = some (Json.str s)) (hne : s ≠ "") :
    parse_salesforce_notification (some (Json.obj fields)) = some (Json.str s) := by
  simp [parse_salesforce_notification, hfield, Json.truthy, hne]

/-- Witness for C5 at the spec's concrete scenario. -/
theorem parse_returns_exact_record_id_witness :
    parse_salesforce_notification (some (Json.obj [("recordId", Json.str "001xx000003DHPGAA4")]))
      = some (Json.str "001xx000003DHPGAA4") :=
  parse_returns_exact_record_id [("recordId", Json.str "001xx000003DHPGAA4")]
    "001xx000003DHPGAA4" rfl (by decide)

/-- C6: for every request whose body is not valid JSON, or is a JSON object
with no `recordId` field, the parser returns the classified failure value
(`None`, never an exception — it is a total function here) and the handler
returns status 400. -/
theorem parse_failure_returns_400 (env : Env)
    (h : env.request = none ∨
      ∃ fields, env.request = some (Json.obj fields) ∧ lookupField fields "recordId" = none) :
    parse_salesforce_notification env.request = none ∧
      (salesforce_trigger env).outcome =
        Outcome.response "Error: Could not parse record ID from notification." 400 := by
  have hp : parse_salesforce_notification env.request = none := by
    rcases h with h | ⟨fields, hreq, hf⟩
    · simp [parse_salesforce_notification, h]
    · simp [parse_salesforce_notification, hreq, hf]
  exact ⟨hp, by simp [salesforce_trigger, hp]⟩

/-- Environment whose request body is not valid JSON (`get_json` raises). -/
def envBadBody : Env := { envOk with request := none }

/-- Witness for C6 on a non-JSON body. -/
theorem parse_failure_returns_400_witness :
    parse_salesforce_notification envBadBody.request = none ∧
      (salesforce_trigger envBadBody).outcome =
        Outcome.response "Error: Could not parse record ID from notification." 400 :=
  parse_failure_returns_400 envBadBody (Or.inl rfl)

/-- Shape of a successful `get_secrets` result: every one of the seven secrets
resolved, and each bundle component is exactly the resolved payload. -/
theorem get_secrets_some_shape (env : Env) (b : Secrets)
    (hb : get_secrets env = some b) :
    env.store (resourceName env.GCP_PROJECT "salesforce-username") = some b.salesforce.username ∧
    env.store (resourceName env.GCP_PROJECT "salesforce-password") = some b.salesforce.password ∧
    env.store (resourceName env.GCP_PROJECT "salesforce-token") = some b.salesforce.token ∧
    env.store (resourceName env.GCP_PROJECT "salesforce-instance-url") = some b.salesforce.instance_url ∧
    env.store (resourceName env.GCP_PROJECT "gmail-client-id") = some b.gmail.client_id ∧
    env.store (resourceName env.GCP_PROJECT "gmail-client-secret") = some b.gmail.client_secret ∧
    env.store (resourceName env.GCP_PROJECT "gmail-refresh-token") = some b.gmail.refresh_token := by
  unfold get_secrets at hb
  repeat' split at hb
  all_goals first
    | exact Option.noConfusion hb
    | · injection hb with hb
        subst hb
        refine ⟨?_, ?_, ?_, ?_, ?_, ?_, ?_⟩ <;> assumption

/-- C4: all-or-nothing secret resolution — if any one of the seven required
secret names cannot be resolved, `get_secrets` returns no bundle; and any
bundle it does return carries the resolved payload of every required secret
(no partial bundle can be returned). -/
theorem get_secrets_all_or_nothing (env : Env) :
    ((∃ sid ∈ requiredSecretIds,
        env.store (resourceName env.GCP_PROJECT sid) = none) → get_secrets env = none)
    ∧ ∀ b, get_secrets env = some b →
        env.store (resourceName env.GCP_PROJECT "salesforce-username") = some b.salesforce.username ∧
        env.store (resourceName env.GCP_PROJECT "salesforce-password") = some b.salesforce.password ∧
        env.store (resourceName env.GCP_PROJECT "salesforce-token") = some b.salesforce.token ∧
        env.store (resourceName env.GCP_PROJECT "salesforce-instance-url") = some b.salesforce.instance_url ∧
        env.store (resourceName env.GCP_PROJECT "gmail-client-id") = some b.gmail.client_id ∧
        env.store (resourceName env.GCP_PROJECT "gmail-client-secret") = some b.gmail.client_secret ∧
        env.store (resourceName env.GCP_PROJECT "gmail-refresh-token") = some b.gmail.refresh_token := by
  refine ⟨?_, fun b hb => get_secrets_some_shape env b hb⟩
  rintro ⟨sid, hmem, hnone⟩
  cases hval : get_secrets env with
  | none => rfl
  | some b =>
    obtain ⟨h1, h2, h3, h4, h5, h6, h7⟩ := get_secrets_some_shape env b hval
    fin_cases hmem <;> simp_all

/-- Environment in which the secret `gmail-refresh-token` is unresolvable. -/
def envMissingSecret : Env := { envOk with
  store := fun name =>
    if name = "projects/demo-project/secrets/gmail-refresh-token/versions/latest"
    then none else some "secret-value" }

/-- Witness for C4: with one required secret unresolvable, no bundle is
returned. -/
theorem get_secrets_all_or_nothing_witness : get_secrets envMissingSecret = none :=
  (get_secrets_all_or_nothing envMissingSecret).1
    ⟨"gmail-refresh-token", by decide, by decide⟩

/-- C1: when parsing, secret resolution and the CRM fetch succeed (and the
sink's table lookup, which precedes the insert call inside
`insert_into_bigquery`, does not raise), every outcome of the insert call
itself — row-level errors or an exception — and every outcome of the notifier
send leave the handler's result unchanged: the success text with status 200. -/
theorem sink_and_notifier_failures_keep_200 (env : Env) (record_id : Json)
    (secrets : Secrets) (data : Json)
    (hparse : parse_salesforce_notification env.request = some record_id)
    (hsec : get_secrets env = some secrets)
    (hfetch : env.fetch secrets.salesforce record_id = FetchResult.returns data)
    (htruthy : data.truthy = true)
    (htable : env.tableLookup = Except.ok ()) :
    (salesforce_trigger env).outcome =
      Outcome.response "Successfully processed Salesforce notification." 200 := by
  have hins : ∃ rows, insert_into_bigquery env data = Except.ok rows := by
    cases h : env.insertRows data with
    | raises e => exact ⟨[], by simp [insert_into_bigquery, htable, h]⟩
    | returns errors =>
      by_cases he : errors = []
      · exact ⟨[data], by simp [insert_into_bigquery, htable, h, he]⟩
      · exact ⟨[], by simp [insert_into_bigquery, htable, h, he]⟩
  obtain ⟨rows, hins⟩ := hins
  simp [salesforce_trigger, hparse, hsec, hfetch, htruthy, hins]

/-- Environment in which the insert call reports row-level errors and the
notifier send raises. -/
def envSinkNotifierFail : Env := { envOk with
  insertRows := fun _ => InsertOutcome.returns ["row insert failed"],
  sendMessage := fun _ => Except.error "send failed" }

/-- Witness for C1: with a failing insert call and a failing send, the
handler still reports success. -/
theorem sink_and_notifier_failures_keep_200_witness :
    (salesforce_trigger envSinkNotifierFail).outcome =
      Outcome.response "Successfully processed Salesforce notification." 200 :=
  sink_and_notifier_failures_keep_200 envSinkNotifierFail
    (Json.str "001xx000003DHPGAA4")
    ⟨⟨"secret-value", "secret-value", "secret-value", "secret-value"⟩,
     ⟨"secret-value", "secret-value", "secret-value"⟩⟩
    sampleRecord rfl rfl rfl rfl rfl

/-- Environment in which every secret access raises. -/
def envSecretFail : Env := { envOk with store := fun _ => none }

/-- C2 evaluated at a failing input: when secret resolution fails,
`get_secrets` returns `None` and the handler immediately subscripts it
(`secrets["salesforce"]`), so a `TypeError` escapes instead of the specified
500 response naming the failed stage. -/
theorem secret_failure_crashes_instead_of_500 :
    get_secrets envSecretFail = none ∧
    (salesforce_trigger envSecretFail).outcome =
      Outcome.uncaught "TypeError: NoneType object is not subscriptable" :=
  ⟨rfl, rfl⟩

/-- Environment in which the Salesforce call raises (e.g. unknown record). -/
def envFetchRaises : Env := { envOk with
  fetch := fun _ _ => FetchResult.raises "SalesforceResourceNotFound: Account 001xx000003DHPGAA4 not found" }

/-- Counterexample for C3: at this concrete input the CRM stage lets the
Salesforce exception escape unclassified and the handler itself raises. -/
theorem handler_raises_counterexample :
    (salesforce_trigger envFetchRaises).outcome =
      Outcome.uncaught "SalesforceResourceNotFound: Account 001xx000003DHPGAA4 not found" := rfl

/-- C3 amended: the parser and the notifier never leak an exception (both are
total, classifying functions of their oracles), and faults of the insert call
and of the send are swallowed; but the handler itself raises exactly when,
after a successful parse, secret resolution fails, or the CRM fetch raises, or
— after a truthy fetch — the warehouse table lookup raises. -/
theorem handler_uncaught_characterization (env : Env) :
    (∃ m, (salesforce_trigger env).outcome = Outcome.uncaught m) ↔
    (∃ record_id, parse_salesforce_notification env.request = some record_id ∧
      (get_secrets env = none ∨
       ∃ s, get_secrets env = some s ∧
         ((∃ e, env.fetch s.salesforce record_id = FetchResult.raises e) ∨
          (∃ d, env.fetch s.salesforce record_id = FetchResult.returns d ∧
            d.truthy = true ∧ ∃ e, env.tableLookup = Except.error e)))) := by
  cases hp : parse_salesforce_notification env.request with
  | none => simp [salesforce_trigger, hp]
  | some rid =>
    cases hs : get_secrets env with
    | none => simp [salesforce_trigger, hp, hs]
    | some s =>
      cases hf : env.fetch s.salesforce rid with
      | raises e => simp [salesforce_trigger, hp, hs, hf]
      | returns d =>
        cases ht : d.truthy with
        | false => simp [salesforce_trigger, hp, hs, hf, ht]
        | true =>
          cases htl : env.tableLookup with
          | error e =>
            simp [salesforce_trigger, insert_into_bigquery, hp, hs, hf, ht, htl]
          | ok u =>
            cases hi : env.insertRows d with
            | raises e =>
              simp [salesforce_trigger, insert_into_bigquery, hp, hs, hf, ht, htl, hi]
            | returns errors =>
              by_cases he : errors = [] <;>
                simp [salesforce_trigger, insert_into_bigquery, hp, hs, hf, ht, htl, hi, he]

/-- Environment in which the BigQuery table lookup preceding the insert
raises. -/
def envTableRaises : Env := { envOk with
  tableLookup := Except.error "NotFound: table demo-project.dataset.table" }

/-- Witness instantiating the characterization at a concrete environment in
which the table lookup raises, so the handler itself raises. -/
theorem handler_uncaught_characterization_witness :
    ∃ m, (salesforce_trigger envTableRaises).outcome = Outcome.uncaught m :=
  (handler_uncaught_characterization envTableRaises).mpr
    ⟨Json.str "001xx000003DHPGAA4", rfl,
     Or.inr ⟨⟨⟨"secret-value", "secret-value", "secret-value", "secret-value"⟩,
              ⟨"secret-value", "secret-value", "secret-value"⟩⟩, rfl,
       Or.inr ⟨sampleRecord, rfl, rfl,
         "NotFound: table demo-project.dataset.table", rfl⟩⟩⟩

/-- C7: when all five stages succeed, exactly one row is inserted into the
sink — the fetched record itself, so its fields (Name, Id, Industry, Phone and
every other mapped field) are exactly the record's — and exactly one message
is submitted, whose subject is `New Salesforce Record Created/Updated: `
followed by the record's `Name` field. -/
theorem successful_run_one_row_one_email (env : Env) (record_id : Json)
    (secrets : Secrets) (fields : List (String × Json)) (name mid : String)
    (hparse : parse_salesforce_notification env.request = some record_id)
    (hsec : get_secrets env = some secrets)
    (hfetch : env.fetch secrets.salesforce record_id = FetchResult.returns (Json.obj fields))
    (hne : fields ≠ [])
    (htable : env.tableLookup = Except.ok ())
    (hinsert : env.insertRows (Json.obj fields) = InsertOutcome.returns [])
    (hbuild : env.buildService secrets.gmail = Except.ok ())
    (hsend : env.sendMessage (buildMessage env fields) = Except.ok mid)
    (hname : lookupField fields "Name" = some (Json.str name)) :
    (salesforce_trigger env).insertedRows = [Json.obj fields] ∧
    (salesforce_trigger env).sentMessages = [buildMessage env fields] ∧
    (buildMessage env fields).subject = "New Salesforce Record Created/Updated: " ++ name ∧
    (salesforce_trigger env).outcome =
      Outcome.response "Successfully processed Salesforce notification." 200 := by
  have htruthy : (Json.obj fields).truthy = true := by
    simp [Json.truthy, hne]
  have hins : insert_into_bigquery env (Json.obj fields) = Except.ok [Json.obj fields] := by
    simp [insert_into_bigquery, htable, hinsert]
  have hsent : send_email_notification env secrets.gmail (Json.obj fields)
      = [buildMessage env fields] := by
    simp [send_email_notification, hbuild, hsend]
  refine ⟨?_, ?_, ?_, ?_⟩ <;>
    simp [salesforce_trigger, hparse, hsec, hfetch, htruthy, hins, hsent,
      buildMessage, fieldOrNA, hname, pyStr]

/-- Witness for C7 at the spec's concrete scenario in `envOk`. -/
theorem successful_run_one_row_one_email_witness :
    (salesforce_trigger envOk).insertedRows = [Json.obj sampleFields] ∧
    (salesforce_trigger envOk).sentMessages = [buildMessage envOk sampleFields] ∧
    (buildMessage envOk sampleFields).subject =
      "New Salesforce Record Created/Updated: " ++ "Acme Corp" ∧
    (salesforce_trigger envOk).outcome =
      Outcome.response "Successfully processed Salesforce notification." 200 :=
  successful_run_one_row_one_email envOk (Json.str "001xx000003DHPGAA4")
    ⟨⟨"secret-value", "secret-value", "secret-value", "secret-value"⟩,
     ⟨"secret-value", "secret-value", "secret-value"⟩⟩
    sampleFields "Acme Corp" "msg-0001" rfl rfl rfl
    (by simp [sampleFields]) rfl rfl rfl rfl rfl

/-- C8: each absent field among Name, Id, Industry, Phone renders as the
literal `N/A` in its slot of the HTML body, and an absent Name also renders
as `N/A` in the subject. -/
theorem absent_fields_render_na (env : Env) (fields : List (String × Json)) :
    (lookupField fields "Name" = none →
      (buildMessage env fields).subject = "New Salesforce Record Created/Updated: N/A" ∧
      (buildMessage env fields).body =
        bodyText "N/A" (fieldOrNA fields "Id") (fieldOrNA fields "Industry")
          (fieldOrNA fields "Phone")) ∧
    (lookupField fields "Id" = none →
      (buildMessage env fields).body =
        bodyText (fieldOrNA fields "Name") "N/A" (fieldOrNA fields "Industry")
          (fieldOrNA fields "Phone")) ∧
    (lookupField fields "Industry" = none →
      (buildMessage env fields).body =
        bodyText (fieldOrNA fields "Name") (fieldOrNA fields "Id") "N/A"
          (fieldOrNA fields "Phone")) ∧
    (lookupField fields "Phone" = none →
      (buildMessage env fields).body =
        bodyText (fieldOrNA fields "Name") (fieldOrNA fields "Id")
          (fieldOrNA fields "Industry") "N/A") := by
  refine ⟨fun h => ?_, fun h => ?_, fun h => ?_, fun h => ?_⟩ <;>
    simp [buildMessage, fieldOrNA, h]

/-- Witness for C8 on a record that lacks the `Name` field. -/
theorem absent_fields_render_na_witness :
    lookupField [("Id", Json.str "001xx000003DHPGAA4")] "Name" = none ∧
    (buildMessage envOk [("Id", Json.str "001xx000003DHPGAA4")]).subject =
      "New Salesforce Record Created/Updated: N/A" :=
  ⟨rfl, ((absent_fields_render_na envOk [("Id", Json.str "001xx000003DHPGAA4")]).1 rfl).1⟩

/-- C9: insertion is append-only and performs no deduplication — running the
pipeline twice in the same environment (same `recordId`, identical CRM data)
appends the fetched record once per run, and the table after the second run
holds exactly one more row than after the first. -/
theorem rerun_appends_second_row (table : List Json) (env : Env) (record_id : Json)
    (secrets : Secrets) (data : Json)
    (hparse : parse_salesforce_notification env.request = some record_id)
    (hsec : get_secrets env = some secrets)
    (hfetch : env.fetch secrets.salesforce record_id = FetchResult.returns data)
    (htruthy : data.truthy = true)
    (htable : env.tableLookup = Except.ok ())
    (hinsert : env.insertRows data = InsertOutcome.returns []) :
    (runPipeline table env).1 = table ++ [data] ∧
    (runPipeline (runPipeline table env).1 env).1 = table ++ [data, data] ∧
    (runPipeline (runPipeline table env).1 env).1.length
      = (runPipeline table env).1.length + 1 := by
  have hrows : (salesforce_trigger env).insertedRows = [data] := by
    simp [salesforce_trigger, hparse, hsec, hfetch, htruthy,
      insert_into_bigquery, htable, hinsert]
  refine ⟨by simp [runPipeline, hrows], ?_, by simp [runPipeline, hrows]⟩
  simp [runPipeline, hrows]

/-- Witness for C9: two runs in `envOk` against an empty table leave two
copies of the fetched record. -/
theorem rerun_appends_second_row_witness :
    (runPipeline [] envOk).1 = [] ++ [sampleRecord] ∧
    (runPipeline (runPipeline [] envOk).1 envOk).1 = [] ++ [sampleRecord, sampleRecord] ∧
    (runPipeline (runPipeline [] envOk).1 envOk).1.length
      = (runPipeline [] envOk).1.length + 1 :=
  rerun_appends_second_row [] envOk (Json.str "001xx000003DHPGAA4")
    ⟨⟨"secret-value", "secret-value", "secret-value", "secret-value"⟩,
     ⟨"secret-value", "secret-value", "secret-value"⟩⟩
    sampleRecord rfl rfl rfl rfl rfl rfl

/-- C10: the rendered message depends on the fetched record only through the
four fields Name, Id, Industry and Phone — two records whose lookups agree on
those four keys yield identical messages (same recipients, sender, subject and
HTML body) under the same environment configuration. -/
theorem message_depends_only_on_four_fields (env : Env)
    (f1 f2 : List (String × Json))
    (hName : lookupField f1 "Name" = lookupField f2 "Name")
    (hId : lookupField f1 "Id" = lookupField f2 "Id")
    (hIndustry : lookupField f1 "Industry" = lookupField f2 "Industry")
    (hPhone : lookupField f1 "Phone" = lookupField f2 "Phone") :
    buildMessage env f1 = buildMessage env f2 := by
  simp [buildMessage, fieldOrNA, hName, hId, hIndustry, hPhone]

/-- Witness for C10: an extra field beyond the four leaves the message
unchanged. -/
theorem message_depends_only_on_four_fields_witness :
    buildMessage envOk sampleFields
      = buildMessage envOk (sampleFields ++ [("Extra", Json.str "ignored")]) :=
  message_depends_only_on_four_fields envOk sampleFields
    (sampleFields ++ [("Extra", Json.str "ignored")]) rfl rfl rfl rfl

end GcpDemo
